import Mathlib

/-!
# Verification of the passkey-example WebAuthn relying-party core

A shallow embedding of `server.js`: the two in-memory stores (`userCache`
and `challengeCache`), the four ceremony route handlers
(`/register/options`, `/register/verify`, `/login/options`,
`/login/verify`) and the session routes (`/logout`, `/me`). The external
`@simplewebauthn/server` ceremony verifier is a trusted collaborator, so
the two `verify*Response` calls are function parameters to the handlers;
a thrown exception is an `Except.error` carrying `error.message`. The
`crypto.randomUUID()` user id and the library-generated challenge are
likewise inputs. The LRU caches are modelled as association lists with
map semantics (insert overwrites, delete removes, one value per key);
TTL expiry and capacity eviction are not modelled, but theorems quantify
over arbitrary states, which covers any store contents eviction can
produce.
-/

namespace Passkey

/-! ## Association-list store primitives (the `lru-cache` get/set/delete/has surface) -/

/-- `cache.get key`. -/
def lookupA {α : Type} : List (String × α) → String → Option α
  | [], _ => none
  | (k, v) :: rest, key => if k = key then some v else lookupA rest key

/-- `cache.set key value`: overwrites the entry for `key` if present,
otherwise adds one. -/
def insertA {α : Type} : List (String × α) → String → α → List (String × α)
  | [], key, v => [(key, v)]
  | (k, w) :: rest, key, v =>
    if k = key then (key, v) :: rest else (k, w) :: insertA rest key v

/-- `cache.delete key`. -/
def eraseA {α : Type} : List (String × α) → String → List (String × α)
  | [], _ => []
  | (k, w) :: rest, key => if k = key then eraseA rest key else (k, w) :: eraseA rest key

/-! ## Data model -/

/-- A stored authenticator (`newDevice` in `/register/verify`). -/
structure Device where
  credentialPublicKey : String
  credentialID : String
  counter : Nat
  transports : List String
deriving Repr, DecidableEq

/-- A user record as created by `createUser`. -/
structure User where
  id : String
  username : String
  devices : List Device
deriving Repr, DecidableEq

/-- The server's mutable stores: `userCache : Map<username, User>` and
`challengeCache : Map<userId, challenge>`. -/
structure ServerState where
  userCache : List (String × User)
  challengeCache : List (String × String)
deriving Repr, DecidableEq

/-- `getUserByUsername` — `userCache.get(username)`. -/
def getUserByUsername (s : ServerState) (username : String) : Option User :=
  lookupA s.userCache username

/-- `createUser` — builds a fresh user (the `crypto.randomUUID()` result is
the `freshId` input) and stores it under the username. -/
def createUser (s : ServerState) (username freshId : String) : User × ServerState :=
  let user : User := { id := freshId, username := username, devices := [] }
  (user, { s with userCache := insertA s.userCache username user })

/-! ## Ceremony-verifier interface (the `@simplewebauthn/server` boundary) -/

/-- The credential inside a successful registration verification
(`registrationInfo.credential`). -/
structure VerifiedCredential where
  id : String
  publicKey : String
  counter : Nat
deriving Repr, DecidableEq

/-- `registrationInfo` as destructured by `/register/verify`. -/
structure RegistrationInfo where
  credential : VerifiedCredential
deriving Repr, DecidableEq

/-- Result object of `verifyRegistrationResponse`. -/
structure RegVerification where
  verified : Bool
  registrationInfo : Option RegistrationInfo
deriving Repr, DecidableEq

/-- The inner `response.response` of a registration client response; the
handler reads `response.response.transports` from it. -/
structure RegResponseBody where
  transports : List String
deriving Repr, DecidableEq

/-- A registration client response (`req.body.response`); `raw` stands for
the attestation payload only the verifier interprets. -/
structure RegResponse where
  response : RegResponseBody
  raw : String
deriving Repr, DecidableEq

/-- Arguments the handler passes to `verifyRegistrationResponse`. -/
structure RegVerifyArgs where
  response : RegResponse
  expectedChallenge : String
  expectedOrigin : String
  expectedRPID : String
deriving Repr, DecidableEq

/-- An authentication client response; `id` is the credential id the
handler matches against stored devices, `raw` the assertion payload. -/
structure AuthResponse where
  id : String
  raw : String
deriving Repr, DecidableEq

/-- The `credential` record the handler passes to
`verifyAuthenticationResponse`. -/
structure CredentialParam where
  id : String
  publicKey : String
  counter : Nat
  transports : List String
deriving Repr, DecidableEq

/-- Arguments the handler passes to `verifyAuthenticationResponse`. -/
structure AuthVerifyArgs where
  response : AuthResponse
  expectedChallenge : String
  expectedOrigin : String
  expectedRPID : String
  credential : CredentialParam
deriving Repr, DecidableEq

/-- `authenticationInfo` of a verification result. -/
structure AuthenticationInfo where
  newCounter : Nat
deriving Repr, DecidableEq

/-- Result object of `verifyAuthenticationResponse`. -/
structure AuthVerification where
  verified : Bool
  authenticationInfo : AuthenticationInfo
deriving Repr, DecidableEq

/-- A registration verifier: `Except.error msg` models a thrown exception
whose `error.message` is `msg`. -/
def RegVerifier : Type := RegVerifyArgs → Except String RegVerification

/-- An authentication verifier. -/
def AuthVerifier : Type := AuthVerifyArgs → Except String AuthVerification

/-! ## Responses -/

/-- One entry of the `allowCredentials` list built by `/login/options`. -/
structure AllowCred where
  id : String
  type : String
  transports : List String
deriving Repr, DecidableEq

/-- The options object of `/register/options` (challenge is the part the
server later needs to match). -/
structure RegistrationOptions where
  challenge : String
deriving Repr, DecidableEq

/-- The options object of `/login/options`. -/
structure AuthenticationOptions where
  challenge : String
  allowCredentials : List AllowCred
deriving Repr, DecidableEq

/-- Caller-visible HTTP responses of the handlers. -/
inductive Response where
  /-- `res.status(400).json(\x7b error: msg \x7d)` -/
  | errorResp (msg : String)
  /-- `res.status(400).json(\x7b verified: false \x7d)` -/
  | notVerified
  /-- `res.json(\x7b verified: true \x7d)` -/
  | verifiedOk
  /-- `res.json(options)` for registration -/
  | regOptions (options : RegistrationOptions)
  /-- `res.json(options)` for authentication -/
  | authOptions (options : AuthenticationOptions)
  /-- `res.json(\x7b success: true \x7d)` -/
  | successTrue
deriving Repr, DecidableEq

/-- Response of `GET /me`. -/
inductive MeRes where
  | loggedIn (username : String)
  | loggedOut
deriving Repr, DecidableEq

/-! ## Route handlers -/

/-- `POST /register/options`. `freshId` is the `crypto.randomUUID()` value
used if the user must be created; `challenge` is the fresh challenge inside
the options `generateRegistrationOptions` returns. The JS guard
`if (!username)` treats the empty string (and a missing field) as falsy. -/
def registerOptions (freshId challenge username : String) (s : ServerState) :
    Response × ServerState :=
  if username = "" then (.errorResp "Username is required", s)
  else
    let (user, s1) :=
      match getUserByUsername s username with
      | some u => (u, s)
      | none => createUser s username freshId
    let options : RegistrationOptions := { challenge := challenge }
    let s2 := { s1 with challengeCache := insertA s1.challengeCache user.id options.challenge }
    (.regOptions options, s2)

/-- `POST /register/verify`. -/
def registerVerify (verify : RegVerifier) (origin rpID username : String)
    (response : RegResponse) (s : ServerState) : Response × ServerState :=
  match getUserByUsername s username with
  | none => (.errorResp "User not found", s)
  | some user =>
    match lookupA s.challengeCache user.id with
    | none => (.errorResp "Challenge expired or not found", s)
    | some expectedChallenge =>
      match verify { response := response, expectedChallenge := expectedChallenge,
                     expectedOrigin := origin, expectedRPID := rpID } with
      | .error msg => (.errorResp msg, s)
      | .ok verification =>
        match verification.verified, verification.registrationInfo with
        | true, some regInfo =>
          let cred := regInfo.credential
          let newDevice : Device :=
            { credentialPublicKey := cred.publicKey
              credentialID := cred.id
              counter := cred.counter
              transports := response.response.transports }
          let user1 : User := { user with devices := user.devices ++ [newDevice] }
          (.verifiedOk,
            { s with userCache := insertA s.userCache username user1,
                     challengeCache := eraseA s.challengeCache user.id })
        | _, _ => (.notVerified, s)

/-- `POST /login/options`. `challenge` is the fresh challenge inside the
options `generateAuthenticationOptions` returns. -/
def loginOptions (challenge username : String) (s : ServerState) :
    Response × ServerState :=
  match getUserByUsername s username with
  | none => (.errorResp "User not found", s)
  | some user =>
    let options : AuthenticationOptions :=
      { challenge := challenge
        allowCredentials := user.devices.map fun device =>
          { id := device.credentialID, type := "public-key"
            transports := device.transports } }
    (.authOptions options,
      { s with challengeCache := insertA s.challengeCache user.id options.challenge })

/-- `device.counter = newCounter` on the first device whose `credentialID`
matches (the one `Array.prototype.find` returns). -/
def updateCounter : List Device → String → Nat → List Device
  | [], _, _ => []
  | d :: ds, cid, c =>
    if d.credentialID = cid then { d with counter := c } :: ds
    else d :: updateCounter ds cid c

/-- `POST /login/verify`. The third component is the session cookie the
response sets: `some username` on success (`res.cookie('username', …)`),
`none` otherwise. The `throw new Error('Authenticator not found for this
user')` is caught by the same `catch` as verifier exceptions, so it
surfaces as the same `errorResp` shape. -/
def loginVerify (verify : AuthVerifier) (origin rpID username : String)
    (response : AuthResponse) (s : ServerState) :
    Response × ServerState × Option String :=
  match getUserByUsername s username with
  | none => (.errorResp "User not found", s, none)
  | some user =>
    match lookupA s.challengeCache user.id with
    | none => (.errorResp "Challenge expired or not found", s, none)
    | some expectedChallenge =>
      match user.devices.find? (fun d => d.credentialID == response.id) with
      | none => (.errorResp "Authenticator not found for this user", s, none)
      | some device =>
        match verify { response := response, expectedChallenge := expectedChallenge,
                       expectedOrigin := origin, expectedRPID := rpID,
                       credential := { id := device.credentialID
                                       publicKey := device.credentialPublicKey
                                       counter := device.counter
                                       transports := device.transports } } with
        | .error msg => (.errorResp msg, s, none)
        | .ok verification =>
          if verification.verified then
            let user1 : User :=
              { user with devices := (updateCounter user.devices response.id
                  verification.authenticationInfo.newCounter) }
            (.verifiedOk,
              { s with userCache := insertA s.userCache username user1,
                       challengeCache := eraseA s.challengeCache user.id },
              some username)
          else
            (.notVerified, s, none)

/-- `POST /logout`: clears the cookie unconditionally and answers
`\x7b success: true \x7d`. The result's second component is the cleared
cookie jar. -/
def logout (_cookie : Option String) : Response × Option String :=
  (.successTrue, none)

/-- `GET /me`: `req.cookies.username` is the cookie jar's value; the JS
guard `if (username && userCache.has(username))` treats an absent cookie
and the empty string as falsy. -/
def me (cookie : Option String) (s : ServerState) : MeRes :=
  match cookie with
  | none => .loggedOut
  | some username =>
    if username ≠ "" ∧ (lookupA s.userCache username).isSome then .loggedIn username
    else .loggedOut

/-! ## Concrete fixtures

Closed values used to instantiate the theorems below at concrete inputs:
small server states, client responses, and concrete instances of the
external-verifier parameter. -/

/-- A stored authenticator with credential id `cred-1`. -/
def fixDevice : Device :=
  { credentialPublicKey := "pk-1", credentialID := "cred-1", counter := 0,
    transports := ["internal"] }

/-- The user `alice` with no devices. -/
def fixAlice : User := { id := "uid-alice", username := "alice", devices := [] }

/-- The user `alice` owning `fixDevice`. -/
def fixAliceDev : User := { id := "uid-alice", username := "alice", devices := [fixDevice] }

/-- The user `bob`, who also owns a device with credential id `cred-1`. -/
def fixBob : User := { id := "uid-bob", username := "bob", devices := [fixDevice] }

/-- State: `alice` (no devices) with a live challenge `ch-1`. -/
def fixState : ServerState :=
  { userCache := [("alice", fixAlice)], challengeCache := [("uid-alice", "ch-1")] }

/-- State: `alice` owning `fixDevice`, live challenge `ch-1`. -/
def fixStateDev : ServerState :=
  { userCache := [("alice", fixAliceDev)], challengeCache := [("uid-alice", "ch-1")] }

/-- State: `alice` (no devices) and `bob` (owning credential `cred-1`),
with a live challenge for `alice`. -/
def fixStateBob : ServerState :=
  { userCache := [("alice", fixAlice), ("bob", fixBob)],
    challengeCache := [("uid-alice", "ch-1")] }

/-- A registration client response hinting `internal` transport. -/
def fixRegResponse : RegResponse :=
  { response := { transports := ["internal"] }, raw := "attestation" }

/-- An authentication client response presenting credential `cred-1`. -/
def fixAuthResponse : AuthResponse := { id := "cred-1", raw := "assertion" }

/-- The credential a successful registration verification extracts. -/
def fixCred : VerifiedCredential := { id := "cred-1", publicKey := "pk-1", counter := 0 }

/-- A registration verifier that approves everything, extracting `cred`. -/
def regAccept (cred : VerifiedCredential) : RegVerifier := fun _ =>
  .ok { verified := true, registrationInfo := some { credential := cred } }

/-- A registration verifier that reports not-verified (no exception). -/
def regReject : RegVerifier := fun _ =>
  .ok { verified := false, registrationInfo := none }

/-- A registration verifier that throws with message `msg`. -/
def regThrow (msg : String) : RegVerifier := fun _ => .error msg

/-- An authentication verifier that approves everything, reporting
`newCounter`. -/
def authAccept (newCounter : Nat) : AuthVerifier := fun _ =>
  .ok { verified := true, authenticationInfo := { newCounter := newCounter } }

/-- An authentication verifier that reports not-verified (no exception). -/
def authReject : AuthVerifier := fun _ =>
  .ok { verified := false, authenticationInfo := { newCounter := 0 } }

/-- An authentication verifier that approves exactly the expected
challenge `ch`, throwing otherwise — used to show which stored challenge
a verification run consumes. -/
def authAcceptOnly (ch : String) (newCounter : Nat) : AuthVerifier := fun args =>
  if args.expectedChallenge = ch then
    .ok { verified := true, authenticationInfo := { newCounter := newCounter } }
  else .error "Challenge mismatch"

/-! ## Store lemmas -/

theorem lookupA_insertA_self {α : Type} (m : List (String × α)) (k : String) (v : α) :
    lookupA (insertA m k v) k = some v := by
  induction m with
  | nil => simp [insertA, lookupA]
  | cons hd tl ih =>
    obtain ⟨k0, v0⟩ := hd
    by_cases h : k0 = k
    · simp [insertA, h, lookupA]
    · simp [insertA, h, lookupA, ih]

theorem lookupA_insertA_ne {α : Type} (m : List (String × α)) (k key : String) (v : α)
    (h : key ≠ k) : lookupA (insertA m k v) key = lookupA m key := by
  induction m with
  | nil => simp [insertA, lookupA, Ne.symm h]
  | cons hd tl ih =>
    obtain ⟨k0, v0⟩ := hd
    by_cases h0 : k0 = k
    · subst h0
      simp [insertA, lookupA, Ne.symm h]
    · simp [insertA, h0, lookupA, ih]

theorem lookupA_eraseA_self {α : Type} (m : List (String × α)) (k : String) :
    lookupA (eraseA m k) k = none := by
  induction m with
  | nil => simp [eraseA, lookupA]
  | cons hd tl ih =>
    obtain ⟨k0, v0⟩ := hd
    by_cases h : k0 = k
    · simp [eraseA, h, ih]
    · simp [eraseA, h, lookupA, ih]

theorem lookupA_eraseA_ne {α : Type} (m : List (String × α)) (k key : String)
    (h : key ≠ k) : lookupA (eraseA m k) key = lookupA m key := by
  induction m with
  | nil => simp [eraseA]
  | cons hd tl ih =>
    obtain ⟨k0, v0⟩ := hd
    by_cases h0 : k0 = k
    · subst h0
      simp [eraseA, lookupA, Ne.symm h, ih]
    · simp [eraseA, h0, lookupA, ih]

theorem find_updateCounter (l : List Device) (cid : String) (c : Nat) (d : Device)
    (h : l.find? (fun x => x.credentialID == cid) = some d) :
    (updateCounter l cid c).find? (fun x => x.credentialID == cid) =
      some { d with counter := c } := by
  induction l with
  | nil => simp [List.find?] at h
  | cons hd tl ih =>
    by_cases hh : hd.credentialID = cid
    · rw [List.find?_cons_of_pos _ (by simp [hh])] at h
      obtain rfl : hd = d := by injection h
      simp [updateCounter, hh, List.find?_cons_of_pos]
    · rw [List.find?_cons_of_neg _ (by simp [hh])] at h
      simp [updateCounter, hh, List.find?_cons_of_neg, ih h]

/-! ## Handler characterizations

One lemma per branch of each route handler, with the branch conditions as
hypotheses; the claim theorems below are assembled from these. -/

theorem registerOptions_emptyUsername (fid ch : String) (s : ServerState) :
    registerOptions fid ch "" s = (.errorResp "Username is required", s) := by
  simp [registerOptions]

theorem registerOptions_existing (fid ch u : String) (s : ServerState) (user : User)
    (hne : u ≠ "") (hu : getUserByUsername s u = some user) :
    registerOptions fid ch u s =
      (.regOptions { challenge := ch },
        { s with challengeCache := insertA s.challengeCache user.id ch }) := by
  simp [registerOptions, hne, hu]

theorem registerOptions_fresh (fid ch u : String) (s : ServerState)
    (hne : u ≠ "") (hu : getUserByUsername s u = none) :
    registerOptions fid ch u s =
      (.regOptions { challenge := ch },
        { userCache := insertA s.userCache u { id := fid, username := u, devices := [] },
          challengeCache := insertA s.challengeCache fid ch }) := by
  simp [registerOptions, hne, hu, createUser]

theorem registerVerify_userNotFound (v : RegVerifier) (o r u : String)
    (resp : RegResponse) (s : ServerState) (hu : getUserByUsername s u = none) :
    registerVerify v o r u resp s = (.errorResp "User not found", s) := by
  simp [registerVerify, hu]

theorem registerVerify_challengeMissing (v : RegVerifier) (o r u : String)
    (resp : RegResponse) (s : ServerState) (user : User)
    (hu : getUserByUsername s u = some user)
    (hc : lookupA s.challengeCache user.id = none) :
    registerVerify v o r u resp s = (.errorResp "Challenge expired or not found", s) := by
  simp [registerVerify, hu, hc]

theorem registerVerify_throw (v : RegVerifier) (o r u : String)
    (resp : RegResponse) (s : ServerState) (user : User) (ch msg : String)
    (hu : getUserByUsername s u = some user)
    (hc : lookupA s.challengeCache user.id = some ch)
    (hv : v { response := resp, expectedChallenge := ch, expectedOrigin := o,
              expectedRPID := r } = .error msg) :
    registerVerify v o r u resp s = (.errorResp msg, s) := by
  simp [registerVerify, hu, hc, hv]

theorem registerVerify_success (v : RegVerifier) (o r u : String)
    (resp : RegResponse) (s : ServerState) (user : User) (ch : String)
    (info : RegistrationInfo)
    (hu : getUserByUsername s u = some user)
    (hc : lookupA s.challengeCache user.id = some ch)
    (hv : v { response := resp, expectedChallenge := ch, expectedOrigin := o,
              expectedRPID := r } = .ok { verified := true, registrationInfo := some info }) :
    registerVerify v o r u resp s =
      (.verifiedOk,
        { userCache := insertA s.userCache u
            { user with devices := user.devices ++
                [{ credentialPublicKey := info.credential.publicKey,
                   credentialID := info.credential.id,
                   counter := info.credential.counter,
                   transports := resp.response.transports }] },
          challengeCache := eraseA s.challengeCache user.id }) := by
  simp [registerVerify, hu, hc, hv]

theorem registerVerify_rejected (v : RegVerifier) (o r u : String)
    (resp : RegResponse) (s : ServerState) (user : User) (ch : String)
    (ver : RegVerification)
    (hu : getUserByUsername s u = some user)
    (hc : lookupA s.challengeCache user.id = some ch)
    (hv : v { response := resp, expectedChallenge := ch, expectedOrigin := o,
              expectedRPID := r } = .ok ver)
    (hver : ver.verified = false) :
    registerVerify v o r u resp s = (.notVerified, s) := by
  obtain ⟨vb, ri⟩ := ver
  simp only at hver
  subst hver
  cases ri <;> simp [registerVerify, hu, hc, hv]

theorem registerVerify_noInfo (v : RegVerifier) (o r u : String)
    (resp : RegResponse) (s : ServerState) (user : User) (ch : String)
    (ver : RegVerification)
    (hu : getUserByUsername s u = some user)
    (hc : lookupA s.challengeCache user.id = some ch)
    (hv : v { response := resp, expectedChallenge := ch, expectedOrigin := o,
              expectedRPID := r } = .ok ver)
    (hri : ver.registrationInfo = none) :
    registerVerify v o r u resp s = (.notVerified, s) := by
  obtain ⟨vb, ri⟩ := ver
  simp only at hri
  subst hri
  cases vb <;> simp [registerVerify, hu, hc, hv]

theorem loginOptions_userNotFound (ch u : String) (s : ServerState)
    (hu : getUserByUsername s u = none) :
    loginOptions ch u s = (.errorResp "User not found", s) := by
  simp [loginOptions, hu]

theorem loginOptions_existing (ch u : String) (s : ServerState) (user : User)
    (hu : getUserByUsername s u = some user) :
    loginOptions ch u s =
      (.authOptions
        { challenge := ch,
          allowCredentials := user.devices.map fun device =>
            { id := device.credentialID, type := "public-key",
              transports := device.transports } },
        { s with challengeCache := insertA s.challengeCache user.id ch }) := by
  simp [loginOptions, hu]

theorem loginVerify_userNotFound (va : AuthVerifier) (o r u : String)
    (resp : AuthResponse) (s : ServerState) (hu : getUserByUsername s u = none) :
    loginVerify va o r u resp s = (.errorResp "User not found", s, none) := by
  simp [loginVerify, hu]

theorem loginVerify_challengeMissing (va : AuthVerifier) (o r u : String)
    (resp : AuthResponse) (s : ServerState) (user : User)
    (hu : getUserByUsername s u = some user)
    (hc : lookupA s.challengeCache user.id = none) :
    loginVerify va o r u resp s =
      (.errorResp "Challenge expired or not found", s, none) := by
  simp [loginVerify, hu, hc]

theorem loginVerify_deviceNotFound (va : AuthVerifier) (o r u : String)
    (resp : AuthResponse) (s : ServerState) (user : User) (ch : String)
    (hu : getUserByUsername s u = some user)
    (hc : lookupA s.challengeCache user.id = some ch)
    (hd : user.devices.find? (fun d => d.credentialID == resp.id) = none) :
    loginVerify va o r u resp s =
      (.errorResp "Authenticator not found for this user", s, none) := by
  simp [loginVerify, hu, hc, hd]

theorem loginVerify_throw (va : AuthVerifier) (o r u : String)
    (resp : AuthResponse) (s : ServerState) (user : User) (ch msg : String)
    (device : Device)
    (hu : getUserByUsername s u = some user)
    (hc : lookupA s.challengeCache user.id = some ch)
    (hd : user.devices.find? (fun d => d.credentialID == resp.id) = some device)
    (hv : va { response := resp, expectedChallenge := ch, expectedOrigin := o,
               expectedRPID := r,
               credential := { id := device.credentialID,
                               publicKey := device.credentialPublicKey,
                               counter := device.counter,
                               transports := device.transports } } = .error msg) :
    loginVerify va o r u resp s = (.errorResp msg, s, none) := by
  simp [loginVerify, hu, hc, hd, hv]

theorem loginVerify_success (va : AuthVerifier) (o r u : String)
    (resp : AuthResponse) (s : ServerState) (user : User) (ch : String)
    (device : Device) (ver : AuthVerification)
    (hu : getUserByUsername s u = some user)
    (hc : lookupA s.challengeCache user.id = some ch)
    (hd : user.devices.find? (fun d => d.credentialID == resp.id) = some device)
    (hv : va { response := resp, expectedChallenge := ch, expectedOrigin := o,
               expectedRPID := r,
               credential := { id := device.credentialID,
                               publicKey := device.credentialPublicKey,
                               counter := device.counter,
                               transports := device.transports } } = .ok ver)
    (hver : ver.verified = true) :
    loginVerify va o r u resp s =
      (.verifiedOk,
        { userCache := insertA s.userCache u
            { user with devices := (updateCounter user.devices resp.id
                ver.authenticationInfo.newCounter) },
          challengeCache := eraseA s.challengeCache user.id },
        some u) := by
  simp [loginVerify, hu, hc, hd, hv, hver]

theorem loginVerify_rejected (va : AuthVerifier) (o r u : String)
    (resp : AuthResponse) (s : ServerState) (user : User) (ch : String)
    (device : Device) (ver : AuthVerification)
    (hu : getUserByUsername s u = some user)
    (hc : lookupA s.challengeCache user.id = some ch)
    (hd : user.devices.find? (fun d => d.credentialID == resp.id) = some device)
    (hv : va { response := resp, expectedChallenge := ch, expectedOrigin := o,
               expectedRPID := r,
               credential := { id := device.credentialID,
                               publicKey := device.credentialPublicKey,
                               counter := device.counter,
                               transports := device.transports } } = .ok ver)
    (hver : ver.verified = false) :
    loginVerify va o r u resp s = (.notVerified, s, none) := by
  simp [loginVerify, hu, hc, hd, hv, hver]

/-! ## Claims -/

/-- C2 counterexample: `bob` already owns the credential `cred-1`, yet a
registration of the same credential id for `alice` answers
`verified = true` and appends the device, so afterwards both users hold
`cred-1` — there is no `DuplicateCredential` failure anywhere in the
code. -/
theorem duplicate_credential_accepted_cex :
    registerVerify (regAccept fixCred) "http://localhost:3000" "localhost" "alice"
        fixRegResponse fixStateBob =
      (.verifiedOk,
        { userCache := [("alice", fixAliceDev), ("bob", fixBob)],
          challengeCache := [] }) := by
  decide

/-- C2 (amended): `/register/verify` performs no duplicate-credential
check. Whenever the verifier approves, the new authenticator is appended
unconditionally — in particular even when another user already owns a
device with the same `credentialID`, whose record stays untouched, so the
two users end up sharing that credential id. -/
theorem registerVerify_no_duplicate_check (v : RegVerifier) (o r u u2 : String)
    (resp : RegResponse) (s : ServerState) (user other : User) (ch : String)
    (info : RegistrationInfo) (d : Device)
    (hu : getUserByUsername s u = some user)
    (hu2 : getUserByUsername s u2 = some other)
    (hne : u2 ≠ u)
    (hdup : d ∈ other.devices ∧ d.credentialID = info.credential.id)
    (hc : lookupA s.challengeCache user.id = some ch)
    (hv : v { response := resp, expectedChallenge := ch, expectedOrigin := o,
              expectedRPID := r } = .ok { verified := true, registrationInfo := some info }) :
    (registerVerify v o r u resp s).1 = .verifiedOk ∧
    getUserByUsername (registerVerify v o r u resp s).2 u =
      some { user with devices := user.devices ++
        [{ credentialPublicKey := info.credential.publicKey,
           credentialID := info.credential.id,
           counter := info.credential.counter,
           transports := resp.response.transports }] } ∧
    getUserByUsername (registerVerify v o r u resp s).2 u2 = some other ∧
    d ∈ other.devices ∧ d.credentialID = info.credential.id := by
  rw [registerVerify_success v o r u resp s user ch info hu hc hv]
  refine ⟨rfl, lookupA_insertA_self .., ?_, hdup.1, hdup.2⟩
  show lookupA (insertA s.userCache u _) u2 = some other
  rw [lookupA_insertA_ne s.userCache u u2 _ hne]
  exact hu2

/-- C2 witness: the amended theorem at the concrete two-user state. -/
theorem registerVerify_no_duplicate_check_witness :
    (registerVerify (regAccept fixCred) "http://localhost:3000" "localhost" "alice"
        fixRegResponse fixStateBob).1 = .verifiedOk ∧
    getUserByUsername (registerVerify (regAccept fixCred) "http://localhost:3000"
        "localhost" "alice" fixRegResponse fixStateBob).2 "alice" =
      some { fixAlice with devices := fixAlice.devices ++
        [{ credentialPublicKey := fixCred.publicKey,
           credentialID := fixCred.id,
           counter := fixCred.counter,
           transports := fixRegResponse.response.transports }] } ∧
    getUserByUsername (registerVerify (regAccept fixCred) "http://localhost:3000"
        "localhost" "alice" fixRegResponse fixStateBob).2 "bob" = some fixBob ∧
    fixDevice ∈ fixBob.devices ∧ fixDevice.credentialID = fixCred.id :=
  registerVerify_no_duplicate_check (regAccept fixCred) "http://localhost:3000"
    "localhost" "alice" "bob" fixRegResponse fixStateBob fixAlice fixBob "ch-1"
    { credential := fixCred } fixDevice (by decide) (by decide) (by decide)
    ⟨by decide, by decide⟩ (by decide) rfl

/-- C3: on a successful `/login/verify` the `newCounter` the verifier
returns is persisted into the matching stored authenticator (the first
device whose `credentialID` equals the response id). Given the
verifier-contract guarantee that a successful verification never reports
a counter below the stored one, the stored counter therefore never
decreases across successful authentications. -/
theorem loginVerify_persists_newCounter (va : AuthVerifier) (o r u : String)
    (resp : AuthResponse) (s : ServerState) (user : User) (ch : String)
    (device : Device) (ver : AuthVerification)
    (hu : getUserByUsername s u = some user)
    (hc : lookupA s.challengeCache user.id = some ch)
    (hd : user.devices.find? (fun d => d.credentialID == resp.id) = some device)
    (hv : va { response := resp, expectedChallenge := ch, expectedOrigin := o,
               expectedRPID := r,
               credential := { id := device.credentialID,
                               publicKey := device.credentialPublicKey,
                               counter := device.counter,
                               transports := device.transports } } = .ok ver)
    (hver : ver.verified = true)
    (hmono : device.counter ≤ ver.authenticationInfo.newCounter) :
    (loginVerify va o r u resp s).1 = .verifiedOk ∧
    getUserByUsername (loginVerify va o r u resp s).2.1 u =
      some { user with devices := (updateCounter user.devices resp.id
        ver.authenticationInfo.newCounter) } ∧
    ({ user with devices := (updateCounter user.devices resp.id
        ver.authenticationInfo.newCounter) } : User).devices.find?
        (fun d => d.credentialID == resp.id) =
      some { device with counter := ver.authenticationInfo.newCounter } ∧
    device.counter ≤ ver.authenticationInfo.newCounter := by
  rw [loginVerify_success va o r u resp s user ch device ver hu hc hd hv hver]
  exact ⟨rfl, lookupA_insertA_self ..,
    find_updateCounter user.devices resp.id ver.authenticationInfo.newCounter device hd,
    hmono⟩

/-- C3 witness: `alice` logs in with `cred-1` (stored counter 0), the
verifier reports counter 5, and the stored device now carries counter 5. -/
theorem loginVerify_persists_newCounter_witness :
    (loginVerify (authAccept 5) "http://localhost:3000" "localhost" "alice"
        fixAuthResponse fixStateDev).1 = .verifiedOk ∧
    getUserByUsername (loginVerify (authAccept 5) "http://localhost:3000" "localhost"
        "alice" fixAuthResponse fixStateDev).2.1 "alice" =
      some { fixAliceDev with devices := (updateCounter fixAliceDev.devices
        fixAuthResponse.id 5) } ∧
    ({ fixAliceDev with devices := (updateCounter fixAliceDev.devices
        fixAuthResponse.id 5) } : User).devices.find?
        (fun d => d.credentialID == fixAuthResponse.id) =
      some { fixDevice with counter := 5 } ∧
    fixDevice.counter ≤ 5 :=
  loginVerify_persists_newCounter (authAccept 5) "http://localhost:3000" "localhost"
    "alice" fixAuthResponse fixStateDev fixAliceDev "ch-1" fixDevice
    { verified := true, authenticationInfo := { newCounter := 5 } }
    (by decide) (by decide) (by decide) rfl rfl (by decide)

/-- C4: for any non-empty username, `/register/options` immediately
followed by `/register/verify` with a response the verifier accepts
against the issued challenge answers `verified = true` and appends
exactly one authenticator — credential id, public key and counter from
the verifier result, transports from the client response — to the device
list of that user (who is fetched or freshly created by the options
call). -/
theorem register_roundtrip_appends_device (v : RegVerifier) (o r fid ch u : String)
    (resp : RegResponse) (s : ServerState) (info : RegistrationInfo)
    (hne : u ≠ "")
    (hv : v { response := resp, expectedChallenge := ch, expectedOrigin := o,
              expectedRPID := r } = .ok { verified := true, registrationInfo := some info }) :
    ∃ user, getUserByUsername (registerOptions fid ch u s).2 u = some user ∧
      (registerVerify v o r u resp (registerOptions fid ch u s).2).1 = .verifiedOk ∧
      getUserByUsername (registerVerify v o r u resp (registerOptions fid ch u s).2).2 u =
        some { user with devices := user.devices ++
          [{ credentialPublicKey := info.credential.publicKey,
             credentialID := info.credential.id,
             counter := info.credential.counter,
             transports := resp.response.transports }] } := by
  cases hu : getUserByUsername s u with
  | some user =>
    rw [registerOptions_existing fid ch u s user hne hu]
    have hu1 : getUserByUsername
        { s with challengeCache := insertA s.challengeCache user.id ch } u = some user := hu
    have hc1 : lookupA
        ({ s with challengeCache := insertA s.challengeCache user.id ch} :
          ServerState).challengeCache user.id = some ch :=
      lookupA_insertA_self ..
    rw [registerVerify_success v o r u resp _ user ch info hu1 hc1 hv]
    exact ⟨user, hu1, rfl, lookupA_insertA_self ..⟩
  | none =>
    rw [registerOptions_fresh fid ch u s hne hu]
    have hu1 : getUserByUsername
        { userCache := insertA s.userCache u { id := fid, username := u, devices := [] },
          challengeCache := insertA s.challengeCache fid ch } u =
        some { id := fid, username := u, devices := [] } :=
      lookupA_insertA_self ..
    have hc1 : lookupA (insertA s.challengeCache fid ch) fid = some ch :=
      lookupA_insertA_self ..
    rw [registerVerify_success v o r u resp _ _ ch info hu1 hc1 hv]
    exact ⟨{ id := fid, username := u, devices := [] }, hu1, rfl, lookupA_insertA_self ..⟩

/-- C4 witness: the never-seen user `bob` registers; the options call
creates the user and the verify call appends the single device. -/
theorem register_roundtrip_appends_device_witness :
    (registerVerify (regAccept fixCred) "http://localhost:3000" "localhost" "bob"
        fixRegResponse (registerOptions "uid-bob" "ch-9" "bob" fixState).2).1 =
      .verifiedOk ∧
    getUserByUsername (registerVerify (regAccept fixCred) "http://localhost:3000"
        "localhost" "bob" fixRegResponse
        (registerOptions "uid-bob" "ch-9" "bob" fixState).2).2 "bob" =
      some { id := "uid-bob", username := "bob",
             devices := [{ credentialPublicKey := "pk-1", credentialID := "cred-1",
                           counter := 0, transports := ["internal"] }] } := by
  obtain ⟨user, h1, h2, h3⟩ :=
    register_roundtrip_appends_device (regAccept fixCred) "http://localhost:3000"
      "localhost" "uid-bob" "ch-9" "bob" fixRegResponse fixState
      { credential := fixCred } (by decide) rfl
  have huser : user = { id := "uid-bob", username := "bob", devices := [] } := by
    have : some user = some { id := "uid-bob", username := "bob", devices := [] } := by
      rw [← h1]; decide
    injection this
  subst huser
  exact ⟨h2, h3⟩

/-- C5: for a username absent from the store, `/login/options` fails with
`User not found` and leaves the state unchanged — for every input, the
empty username included, it never creates a user — while
`/register/options` on a never-seen non-empty username performs
get-or-create: it returns the options and the user now exists with an
empty device list. -/
theorem loginOptions_never_creates_user (fid ch u : String) (s : ServerState)
    (hu : getUserByUsername s u = none) :
    loginOptions ch u s = (.errorResp "User not found", s) ∧
    (u ≠ "" →
      (registerOptions fid ch u s).1 = .regOptions { challenge := ch } ∧
      getUserByUsername (registerOptions fid ch u s).2 u =
        some { id := fid, username := u, devices := [] }) := by
  refine ⟨loginOptions_userNotFound ch u s hu, fun hne => ?_⟩
  rw [registerOptions_fresh fid ch u s hne hu]
  exact ⟨rfl, lookupA_insertA_self ..⟩

/-- C5 witness: unknown `bob` is rejected by `/login/options` with the
state unchanged, and created by `/register/options`. -/
theorem loginOptions_never_creates_user_witness :
    loginOptions "ch-2" "bob" fixState = (.errorResp "User not found", fixState) ∧
    (registerOptions "uid-bob" "ch-2" "bob" fixState).1 =
      .regOptions { challenge := "ch-2" } ∧
    getUserByUsername (registerOptions "uid-bob" "ch-2" "bob" fixState).2 "bob" =
      some { id := "uid-bob", username := "bob", devices := [] } :=
  ⟨(loginOptions_never_creates_user "uid-bob" "ch-2" "bob" fixState (by decide)).1,
   (loginOptions_never_creates_user "uid-bob" "ch-2" "bob" fixState (by decide)).2
     (by decide)⟩

/-- C6: when the verifier returns a result with `verified = false` and no
exception, `/register/verify` and `/login/verify` answer the opaque
`notVerified` response and return the server state exactly as it was —
no counter, device list or challenge is mutated — and no session cookie
is set. -/
theorem notVerified_mutates_nothing (o r u : String) (s : ServerState) (user : User)
    (ch : String)
    (hu : getUserByUsername s u = some user)
    (hc : lookupA s.challengeCache user.id = some ch) :
    (∀ (v : RegVerifier) (resp : RegResponse) (ver : RegVerification),
      v { response := resp, expectedChallenge := ch, expectedOrigin := o,
          expectedRPID := r } = .ok ver → ver.verified = false →
      registerVerify v o r u resp s = (.notVerified, s)) ∧
    (∀ (va : AuthVerifier) (resp : AuthResponse) (device : Device)
        (ver : AuthVerification),
      user.devices.find? (fun d => d.credentialID == resp.id) = some device →
      va { response := resp, expectedChallenge := ch, expectedOrigin := o,
           expectedRPID := r,
           credential := { id := device.credentialID,
                           publicKey := device.credentialPublicKey,
                           counter := device.counter,
                           transports := device.transports } } = .ok ver →
      ver.verified = false →
      loginVerify va o r u resp s = (.notVerified, s, none)) :=
  ⟨fun v resp ver hv hver =>
      registerVerify_rejected v o r u resp s user ch ver hu hc hv hver,
   fun va resp device ver hd hv hver =>
      loginVerify_rejected va o r u resp s user ch device ver hu hc hd hv hver⟩

/-- C6 witness: rejecting verifiers on the concrete one-device state —
both endpoints answer `notVerified` and hand back the state unchanged. -/
theorem notVerified_mutates_nothing_witness :
    registerVerify regReject "http://localhost:3000" "localhost" "alice"
        fixRegResponse fixStateDev = (.notVerified, fixStateDev) ∧
    loginVerify authReject "http://localhost:3000" "localhost" "alice"
        fixAuthResponse fixStateDev = (.notVerified, fixStateDev, none) :=
  ⟨(notVerified_mutates_nothing "http://localhost:3000" "localhost" "alice"
      fixStateDev fixAliceDev "ch-1" (by decide) (by decide)).1 regReject
      fixRegResponse { verified := false, registrationInfo := none } rfl rfl,
   (notVerified_mutates_nothing "http://localhost:3000" "localhost" "alice"
      fixStateDev fixAliceDev "ch-1" (by decide) (by decide)).2 authReject
      fixAuthResponse fixDevice
      { verified := false, authenticationInfo := { newCounter := 0 } }
      (by decide) rfl rfl⟩

/-- C7: `/me` answers logged-in with the cookie username exactly when a
cookie is presented and that username still exists in the user store
(eviction or deletion of the user acts as implicit logout), and
`/logout` always answers success and clears the cookie, after which
`/me` answers logged-out. The hypothesis that the empty username is
never a stored user holds in every reachable state, because
`/register/options` — the only place users are created — refuses the
empty username. -/
theorem me_session_contract (s : ServerState) (u : String) (cookie : Option String)
    (hempty : lookupA s.userCache "" = none) :
    (me cookie s = .loggedIn u ↔
      cookie = some u ∧ (lookupA s.userCache u).isSome) ∧
    logout cookie = (.successTrue, none) ∧
    me (logout cookie).2 s = .loggedOut := by
  refine ⟨?_, rfl, rfl⟩
  cases cookie with
  | none => simp [me]
  | some w =>
    by_cases hw0 : w = ""
    · subst hw0
      constructor
      · intro h
        simp [me] at h
      · rintro ⟨hcu, hsome⟩
        obtain rfl : "" = u := by injection hcu
        rw [hempty] at hsome
        simp at hsome
    · by_cases hsome : (lookupA s.userCache w).isSome
      · have hme : me (some w) s = .loggedIn w := by simp [me, hw0, hsome]
        rw [hme]
        constructor
        · intro h
          obtain rfl : w = u := by injection h
          exact ⟨rfl, hsome⟩
        · rintro ⟨hcu, _⟩
          obtain rfl : w = u := by injection hcu
          rfl
      · have hme : me (some w) s = .loggedOut := by simp [me, hw0, hsome]
        rw [hme]
        constructor
        · intro h
          exact absurd h (by simp)
        · rintro ⟨hcu, hs⟩
          obtain rfl : w = u := by injection hcu
          exact absurd hs hsome

/-- C7 witness: `alice` exists in the concrete state, so `/me` with her
cookie answers logged-in, and after `/logout` it answers logged-out. -/
theorem me_session_contract_witness :
    (me (some "alice") fixState = .loggedIn "alice" ↔
      some "alice" = some "alice" ∧ (lookupA fixState.userCache "alice").isSome) ∧
    logout (some "alice") = (.successTrue, none) ∧
    me (logout (some "alice")).2 fixState = .loggedOut :=
  me_session_contract fixState "alice" (some "alice") (by decide)

/-- C1 counterexample: with a verifier that reports not-verified, the
first `/register/verify` attempt hands the state back unchanged — the
challenge `ch-1` is still live, not consumed — and an identical second
call answers `notVerified` again instead of failing with the
challenge-missing error the claim requires. -/
theorem failed_attempt_keeps_challenge_cex :
    registerVerify regReject "http://localhost:3000" "localhost" "alice"
        fixRegResponse fixState = (.notVerified, fixState) ∧
    lookupA (registerVerify regReject "http://localhost:3000" "localhost" "alice"
        fixRegResponse fixState).2.challengeCache "uid-alice" = some "ch-1" ∧
    (registerVerify regReject "http://localhost:3000" "localhost" "alice" fixRegResponse
        (registerVerify regReject "http://localhost:3000" "localhost" "alice"
          fixRegResponse fixState).2).1 = .notVerified := by
  exact ⟨by decide, by decide, by decide⟩

/-- C1 (amended): a challenge is consumed exactly by a successful
verification: when `/register/verify` or `/login/verify` answers
`verified = true`, an identical second call fails with the
challenge-missing error (so the same challenge yields `verified = true`
at most once); on any other outcome the handler returns the state
unchanged, leaving the challenge live for a retry. -/
theorem challenge_consumed_only_on_success (v : RegVerifier) (va : AuthVerifier)
    (o r u : String) (rresp : RegResponse) (aresp : AuthResponse) (s : ServerState) :
    ((registerVerify v o r u rresp s).1 = .verifiedOk →
      registerVerify v o r u rresp (registerVerify v o r u rresp s).2 =
        (.errorResp "Challenge expired or not found",
         (registerVerify v o r u rresp s).2)) ∧
    ((registerVerify v o r u rresp s).1 ≠ .verifiedOk →
      (registerVerify v o r u rresp s).2 = s) ∧
    ((loginVerify va o r u aresp s).1 = .verifiedOk →
      loginVerify va o r u aresp (loginVerify va o r u aresp s).2.1 =
        (.errorResp "Challenge expired or not found",
         (loginVerify va o r u aresp s).2.1, none)) ∧
    ((loginVerify va o r u aresp s).1 ≠ .verifiedOk →
      (loginVerify va o r u aresp s).2.1 = s) := by
  refine ⟨?_, ?_, ?_, ?_⟩
  · intro hok
    cases hu : getUserByUsername s u with
    | none =>
      rw [registerVerify_userNotFound v o r u rresp s hu] at hok
      simp at hok
    | some user =>
      cases hc : lookupA s.challengeCache user.id with
      | none =>
        rw [registerVerify_challengeMissing v o r u rresp s user hu hc] at hok
        simp at hok
      | some ch =>
        cases hv : v { response := rresp, expectedChallenge := ch, expectedOrigin := o,
                       expectedRPID := r } with
        | error msg =>
          rw [registerVerify_throw v o r u rresp s user ch msg hu hc hv] at hok
          simp at hok
        | ok ver =>
          obtain ⟨vb, ri⟩ := ver
          cases vb with
          | false =>
            rw [registerVerify_rejected v o r u rresp s user ch _ hu hc hv rfl] at hok
            simp at hok
          | true =>
            cases ri with
            | none =>
              rw [registerVerify_noInfo v o r u rresp s user ch _ hu hc hv rfl] at hok
              simp at hok
            | some info =>
              rw [registerVerify_success v o r u rresp s user ch info hu hc hv]
              exact registerVerify_challengeMissing v o r u rresp _ _
                (lookupA_insertA_self ..) (lookupA_eraseA_self ..)
  · intro hne
    cases hu : getUserByUsername s u with
    | none => rw [registerVerify_userNotFound v o r u rresp s hu]
    | some user =>
      cases hc : lookupA s.challengeCache user.id with
      | none => rw [registerVerify_challengeMissing v o r u rresp s user hu hc]
      | some ch =>
        cases hv : v { response := rresp, expectedChallenge := ch, expectedOrigin := o,
                       expectedRPID := r } with
        | error msg => rw [registerVerify_throw v o r u rresp s user ch msg hu hc hv]
        | ok ver =>
          obtain ⟨vb, ri⟩ := ver
          cases vb with
          | false => rw [registerVerify_rejected v o r u rresp s user ch _ hu hc hv rfl]
          | true =>
            cases ri with
            | none => rw [registerVerify_noInfo v o r u rresp s user ch _ hu hc hv rfl]
            | some info =>
              rw [registerVerify_success v o r u rresp s user ch info hu hc hv] at hne
              exact absurd rfl hne
  · intro hok
    cases hu : getUserByUsername s u with
    | none =>
      rw [loginVerify_userNotFound va o r u aresp s hu] at hok
      simp at hok
    | some user =>
      cases hc : lookupA s.challengeCache user.id with
      | none =>
        rw [loginVerify_challengeMissing va o r u aresp s user hu hc] at hok
        simp at hok
      | some ch =>
        cases hd : user.devices.find? (fun d => d.credentialID == aresp.id) with
        | none =>
          rw [loginVerify_deviceNotFound va o r u aresp s user ch hu hc hd] at hok
          simp at hok
        | some device =>
          cases hv : va { response := aresp, expectedChallenge := ch, expectedOrigin := o,
                          expectedRPID := r,
                          credential := { id := device.credentialID,
                                          publicKey := device.credentialPublicKey,
                                          counter := device.counter,
                                          transports := device.transports } } with
          | error msg =>
            rw [loginVerify_throw va o r u aresp s user ch msg device hu hc hd hv] at hok
            simp at hok
          | ok ver =>
            obtain ⟨vb, ai⟩ := ver
            cases vb with
            | false =>
              rw [loginVerify_rejected va o r u aresp s user ch device _ hu hc hd hv rfl]
                at hok
              simp at hok
            | true =>
              rw [loginVerify_success va o r u aresp s user ch device _ hu hc hd hv rfl]
              exact loginVerify_challengeMissing va o r u aresp _ _
                (lookupA_insertA_self ..) (lookupA_eraseA_self ..)
  · intro hne
    cases hu : getUserByUsername s u with
    | none => rw [loginVerify_userNotFound va o r u aresp s hu]
    | some user =>
      cases hc : lookupA s.challengeCache user.id with
      | none => rw [loginVerify_challengeMissing va o r u aresp s user hu hc]
      | some ch =>
        cases hd : user.devices.find? (fun d => d.credentialID == aresp.id) with
        | none => rw [loginVerify_deviceNotFound va o r u aresp s user ch hu hc hd]
        | some device =>
          cases hv : va { response := aresp, expectedChallenge := ch, expectedOrigin := o,
                          expectedRPID := r,
                          credential := { id := device.credentialID,
                                          publicKey := device.credentialPublicKey,
                                          counter := device.counter,
                                          transports := device.transports } } with
          | error msg => rw [loginVerify_throw va o r u aresp s user ch msg device hu hc hd hv]
          | ok ver =>
            obtain ⟨vb, ai⟩ := ver
            cases vb with
            | false => rw [loginVerify_rejected va o r u aresp s user ch device _ hu hc hd hv rfl]
            | true =>
              rw [loginVerify_success va o r u aresp s user ch device _ hu hc hd hv rfl]
                at hne
              exact absurd rfl hne

/-- C1 witness: on the concrete state, a successful first
`/register/verify` call consumes the challenge, and the identical second
call fails with the challenge-missing error. -/
theorem challenge_consumed_only_on_success_witness :
    (registerVerify (regAccept fixCred) "http://localhost:3000" "localhost" "alice"
        fixRegResponse fixState).1 = .verifiedOk ∧
    registerVerify (regAccept fixCred) "http://localhost:3000" "localhost" "alice"
        fixRegResponse
        (registerVerify (regAccept fixCred) "http://localhost:3000" "localhost" "alice"
          fixRegResponse fixState).2 =
      (.errorResp "Challenge expired or not found",
       (registerVerify (regAccept fixCred) "http://localhost:3000" "localhost" "alice"
         fixRegResponse fixState).2) :=
  ⟨by decide,
   (challenge_consumed_only_on_success (regAccept fixCred) (authAccept 0)
      "http://localhost:3000" "localhost" "alice" fixRegResponse fixAuthResponse
      fixState).1 (by decide)⟩

/-- C8 counterexample: stored challenges carry no purpose tag. The
challenge `reg-ch` issued by `/register/options` — a Registration-purpose
challenge in the words of the claim — is accepted as the expected
challenge of `/login/verify`: with a verifier that approves exactly the
expected challenge `reg-ch` and throws on any other, authentication
answers `verified = true`. A store whose challenges carried and enforced
a purpose would have to reject this cross-ceremony use. -/
theorem challenge_purpose_not_enforced_cex :
    (loginVerify (authAcceptOnly "reg-ch" 7) "http://localhost:3000" "localhost" "alice"
        fixAuthResponse
        (registerOptions "uid-x" "reg-ch" "alice" fixStateDev).2).1 = .verifiedOk := by
  decide

/-- C8 (amended): at most one live challenge per user, held in a single
untagged slot keyed by the stable user id: a new `/register/options`
call overwrites whatever challenge was pending, a following
`/login/options` call overwrites it again in the same slot — challenges
of the two ceremony types displace each other — and slots of other keys
are untouched. No purpose is stored or checked. -/
theorem challenge_single_slot_overwrite (fid ch1 ch2 u : String) (s : ServerState)
    (user : User) (hne : u ≠ "") (hu : getUserByUsername s u = some user) :
    lookupA (registerOptions fid ch1 u s).2.challengeCache user.id = some ch1 ∧
    lookupA (loginOptions ch2 u (registerOptions fid ch1 u s).2).2.challengeCache
        user.id = some ch2 ∧
    (∀ k, k ≠ user.id →
      lookupA (registerOptions fid ch1 u s).2.challengeCache k =
        lookupA s.challengeCache k) := by
  rw [registerOptions_existing fid ch1 u s user hne hu]
  have hu1 : getUserByUsername
      { s with challengeCache := insertA s.challengeCache user.id ch1 } u = some user := hu
  rw [loginOptions_existing ch2 u _ user hu1]
  exact ⟨lookupA_insertA_self .., lookupA_insertA_self ..,
    fun k hk => lookupA_insertA_ne s.challengeCache user.id k ch1 hk⟩

/-- C8 witness: on the concrete state with live challenge `ch-1`, a
registration options call overwrites it with `ch-r`, a login options call
then overwrites `ch-r` with `ch-a` in the same slot, and an unrelated
key is untouched. -/
theorem challenge_single_slot_overwrite_witness :
    lookupA (registerOptions "uid-x" "ch-r" "alice" fixStateDev).2.challengeCache
        "uid-alice" = some "ch-r" ∧
    lookupA (loginOptions "ch-a" "alice"
        (registerOptions "uid-x" "ch-r" "alice" fixStateDev).2).2.challengeCache
        "uid-alice" = some "ch-a" ∧
    lookupA (registerOptions "uid-x" "ch-r" "alice" fixStateDev).2.challengeCache
        "uid-other" = lookupA fixStateDev.challengeCache "uid-other" :=
  ⟨(challenge_single_slot_overwrite "uid-x" "ch-r" "ch-a" "alice" fixStateDev
      fixAliceDev (by decide) (by decide)).1,
   (challenge_single_slot_overwrite "uid-x" "ch-r" "ch-a" "alice" fixStateDev
      fixAliceDev (by decide) (by decide)).2.1,
   (challenge_single_slot_overwrite "uid-x" "ch-r" "ch-a" "alice" fixStateDev
      fixAliceDev (by decide) (by decide)).2.2 "uid-other" (by decide)⟩

/-- C9 counterexample: two runs that differ only in the internal failure
reason the verifier throws produce different caller-visible responses —
the thrown message is surfaced verbatim in the 400 body, it is not an
opaque `verified: false`. -/
theorem verifier_reason_leaked_cex :
    (registerVerify (regThrow "reason A") "http://localhost:3000" "localhost" "alice"
        fixRegResponse fixState).1 = .errorResp "reason A" ∧
    (registerVerify (regThrow "reason B") "http://localhost:3000" "localhost" "alice"
        fixRegResponse fixState).1 = .errorResp "reason B" ∧
    (registerVerify (regThrow "reason A") "http://localhost:3000" "localhost" "alice"
        fixRegResponse fixState).1 ≠
      (registerVerify (regThrow "reason B") "http://localhost:3000" "localhost" "alice"
        fixRegResponse fixState).1 := by
  exact ⟨by decide, by decide, by decide⟩

/-- C9 (amended): only the verifier-reported not-verified outcome is
opaque: any two runs whose verifiers return `verified = false` without
throwing produce the identical `notVerified` response, whatever the rest
of their results. But when the verifier throws, both endpoints surface
the exception message verbatim in the 400 response, so runs differing
only in the thrown reason produce different caller-visible responses. -/
theorem failure_response_shapes (o r u : String) (s : ServerState) (user : User)
    (ch : String)
    (hu : getUserByUsername s u = some user)
    (hc : lookupA s.challengeCache user.id = some ch) :
    (∀ (v : RegVerifier) (resp : RegResponse) (msg : String),
      v { response := resp, expectedChallenge := ch, expectedOrigin := o,
          expectedRPID := r } = .error msg →
      registerVerify v o r u resp s = (.errorResp msg, s)) ∧
    (∀ (va : AuthVerifier) (resp : AuthResponse) (device : Device) (msg : String),
      user.devices.find? (fun d => d.credentialID == resp.id) = some device →
      va { response := resp, expectedChallenge := ch, expectedOrigin := o,
           expectedRPID := r,
           credential := { id := device.credentialID,
                           publicKey := device.credentialPublicKey,
                           counter := device.counter,
                           transports := device.transports } } = .error msg →
      loginVerify va o r u resp s = (.errorResp msg, s, none)) ∧
    (∀ (v1 v2 : RegVerifier) (resp1 resp2 : RegResponse)
        (ver1 ver2 : RegVerification),
      v1 { response := resp1, expectedChallenge := ch, expectedOrigin := o,
           expectedRPID := r } = .ok ver1 →
      v2 { response := resp2, expectedChallenge := ch, expectedOrigin := o,
           expectedRPID := r } = .ok ver2 →
      ver1.verified = false → ver2.verified = false →
      (registerVerify v1 o r u resp1 s).1 = (registerVerify v2 o r u resp2 s).1) := by
  refine ⟨fun v resp msg hv => registerVerify_throw v o r u resp s user ch msg hu hc hv,
    fun va resp device msg hd hv =>
      loginVerify_throw va o r u resp s user ch msg device hu hc hd hv,
    fun v1 v2 resp1 resp2 ver1 ver2 h1 h2 hf1 hf2 => ?_⟩
  rw [registerVerify_rejected v1 o r u resp1 s user ch ver1 hu hc h1 hf1,
      registerVerify_rejected v2 o r u resp2 s user ch ver2 hu hc h2 hf2]

/-- C9 witness: concrete thrown reasons are surfaced verbatim by both
endpoints. -/
theorem failure_response_shapes_witness :
    registerVerify (regThrow "Unexpected registration response origin")
        "http://localhost:3000" "localhost" "alice" fixRegResponse fixState =
      (.errorResp "Unexpected registration response origin", fixState) ∧
    loginVerify (fun _ => .error "Signature verification failed")
        "http://localhost:3000" "localhost" "alice" fixAuthResponse fixStateDev =
      (.errorResp "Signature verification failed", fixStateDev, none) :=
  ⟨(failure_response_shapes "http://localhost:3000" "localhost" "alice" fixState
      fixAlice "ch-1" (by decide) (by decide)).1
      (regThrow "Unexpected registration response origin") fixRegResponse
      "Unexpected registration response origin" rfl,
   (failure_response_shapes "http://localhost:3000" "localhost" "alice" fixStateDev
      fixAliceDev "ch-1" (by decide) (by decide)).2.1
      (fun _ => .error "Signature verification failed") fixAuthResponse fixDevice
      "Signature verification failed" (by decide) rfl⟩

/-- C10: registration and authentication share the one per-user challenge
slot, keyed only by the stable user id with no purpose tag: the
challenge stored by `/register/options` is exactly the expected
challenge `/login/verify` hands its verifier (so a verifier that accepts
it makes authentication succeed), and symmetrically the challenge stored
by `/login/options` is the expected challenge `/register/verify` uses;
both options calls write the identical slot, so issuing options for one
ceremony type overwrites a pending challenge of the other. -/
theorem shared_challenge_slot_cross_ceremony (v : RegVerifier) (va : AuthVerifier)
    (o r fid ch u : String) (s : ServerState) (user : User)
    (hne : u ≠ "") (hu : getUserByUsername s u = some user) :
    (∀ (resp : AuthResponse) (device : Device) (ver : AuthVerification),
      user.devices.find? (fun d => d.credentialID == resp.id) = some device →
      va { response := resp, expectedChallenge := ch, expectedOrigin := o,
           expectedRPID := r,
           credential := { id := device.credentialID,
                           publicKey := device.credentialPublicKey,
                           counter := device.counter,
                           transports := device.transports } } = .ok ver →
      ver.verified = true →
      (loginVerify va o r u resp (registerOptions fid ch u s).2).1 = .verifiedOk) ∧
    (∀ (resp : RegResponse) (info : RegistrationInfo),
      v { response := resp, expectedChallenge := ch, expectedOrigin := o,
          expectedRPID := r } = .ok { verified := true, registrationInfo := some info } →
      (registerVerify v o r u resp (loginOptions ch u s).2).1 = .verifiedOk) ∧
    (registerOptions fid ch u s).2.challengeCache =
      insertA s.challengeCache user.id ch ∧
    (loginOptions ch u s).2.challengeCache = insertA s.challengeCache user.id ch := by
  have hs1 : (registerOptions fid ch u s).2 =
      { s with challengeCache := insertA s.challengeCache user.id ch } := by
    rw [registerOptions_existing fid ch u s user hne hu]
  have hs2 : (loginOptions ch u s).2 =
      { s with challengeCache := insertA s.challengeCache user.id ch } := by
    rw [loginOptions_existing ch u s user hu]
  have hu1 : getUserByUsername
      { s with challengeCache := insertA s.challengeCache user.id ch } u =
      some user := hu
  have hc1 : lookupA
      ({ s with challengeCache := insertA s.challengeCache user.id ch } :
        ServerState).challengeCache user.id = some ch :=
    lookupA_insertA_self s.challengeCache user.id ch
  refine ⟨fun resp device ver hd hv hver => ?_, fun resp info hv => ?_,
    by rw [hs1], by rw [hs2]⟩
  · rw [hs1, loginVerify_success va o r u resp _ user ch device ver hu1 hc1 hd hv hver]
  · rw [hs2, registerVerify_success v o r u resp _ user ch info hu1 hc1 hv]

/-- C10 witness: concretely, the register-issued challenge `ch-reg` is
what the authentication verifier is given (a verifier accepting exactly
`ch-reg` makes login succeed), and the login-issued challenge serves a
registration verification. -/
theorem shared_challenge_slot_cross_ceremony_witness :
    (loginVerify (authAcceptOnly "ch-reg" 3) "http://localhost:3000" "localhost" "alice"
        fixAuthResponse (registerOptions "uid-x" "ch-reg" "alice" fixStateDev).2).1 =
      .verifiedOk ∧
    (registerVerify (regAccept fixCred) "http://localhost:3000" "localhost" "alice"
        fixRegResponse (loginOptions "ch-auth" "alice" fixStateDev).2).1 =
      .verifiedOk :=
  ⟨(shared_challenge_slot_cross_ceremony (regAccept fixCred) (authAcceptOnly "ch-reg" 3)
      "http://localhost:3000" "localhost" "uid-x" "ch-reg" "alice" fixStateDev
      fixAliceDev (by decide) (by decide)).1 fixAuthResponse fixDevice
      { verified := true, authenticationInfo := { newCounter := 3 } }
      (by decide) rfl rfl,
   ((shared_challenge_slot_cross_ceremony (regAccept fixCred) (authAcceptOnly "ch-reg" 3)
      "http://localhost:3000" "localhost" "uid-x" "ch-auth" "alice" fixStateDev
      fixAliceDev (by decide) (by decide)).2).1 fixRegResponse
      { credential := fixCred } rfl⟩

end Passkey
